import Mathlib

/-!
Shallow embedding of the lumafin fintech backend (Django/DRF source under
src/backend), covering the code paths needed by the claims: transaction
creation (validation, balance updates, reference numbers), card-number
generation (Luhn), recurring-transaction execution (calendar arithmetic),
and transaction disputes.

Conventions:
* Decimal columns (decimal_places=8) are embedded as Int values in units of
  10^-8; Decimal addition, subtraction and comparison are exact and
  correspond to Int operations.
* The relational store of accounts is a total map from row id to row; each
  ORM save() writes a full in-memory instance back to its row.
* Randomness (random digit suffixes) and the clock (YYYYMMDD timestamps)
  are passed in as explicit oracle parameters.
* Python exceptions become an explicit error component of the result.
-/

namespace Lumafin

/-- Python-level errors that the modelled code paths can raise:
DRF ValidationError, the database IntegrityError raised when a column with
unique=True receives a duplicate, and Python's NameError for an unbound
name. -/
inductive PyError where
  | validationError (msg : String)
  | integrityError
  | nameError (name : String)
  deriving DecidableEq

/-- One row of apps/accounts/models.py Account, restricted to the columns
the modelled operations read or write: the owner (ownership check in
TransactionCreateSerializer.validate), the three balance columns, the
account_number (Account.save regenerates it when empty) and the status
flags. Remaining columns are never read nor written by the modelled paths
and behave like the untouched flags here. -/
structure Account where
  userId : Nat
  account_number : String
  account_type : String
  currency : String
  available_balance : Int
  ledger_balance : Int
  pending_balance : Int
  is_active : Bool
  is_frozen : Bool
  deriving DecidableEq

/-- The account table: a total map from row id to row. -/
def AccountStore : Type := Nat → Account

/-- Write one row of the account table. -/
def writeRow (store : AccountStore) (id : Nat) (a : Account) : AccountStore :=
  fun j => if j = id then a else store j

/-- Model of Account.save for an in-memory instance being written back to
its row (accounts/models.py lines 144-147): if account_number is empty a
generated number (oracle parameter gen) is assigned first, then the whole
instance is written. -/
def Account.saveRow (inst : Account) (gen : String) : Account :=
  if inst.account_number = "" then { inst with account_number := gen } else inst

/-- One row of apps/transactions/models.py Transaction, restricted to the
columns the modelled operations read or write. status defaults to
"pending"; processed_at is nullable. -/
structure Transaction where
  from_account : Option Nat
  to_account : Option Nat
  transaction_type : String
  status : String
  amount : Int
  currency : String
  reference_number : String
  processed_at : Option String
  deriving DecidableEq

/-- Transaction.generate_reference_number (transactions/models.py lines
139-147): "TXN" + timezone.now().strftime of YYYYMMDD + 8 random digits.
The timestamp and the random suffix are oracle parameters. -/
def generate_reference_number (timestamp : String) (random_suffix : String) : String :=
  "TXN" ++ timestamp ++ random_suffix

/-- The first half of Transaction.save (transactions/models.py lines
134-137): an empty reference_number is filled by
generate_reference_number before the row is written. -/
def Transaction.withReference (txn : Transaction)
    (timestamp random_suffix : String) : Transaction :=
  if txn.reference_number = "" then
    { txn with reference_number := generate_reference_number timestamp random_suffix }
  else txn

/-- Transaction.save for a new row (transactions/models.py lines 134-137)
combined with the INSERT against the store: an empty reference_number is
filled first, and the unique=True constraint on reference_number (line 90)
makes the INSERT raise IntegrityError when the store already holds the
same reference. On success the new row is appended and also returned (the
in-memory instance). -/
def Transaction.saveNew (store : List Transaction) (txn : Transaction)
    (timestamp random_suffix : String) : Except PyError (List Transaction × Transaction) :=
  let txn1 := txn.withReference timestamp random_suffix
  if store.any (fun t => t.reference_number == txn1.reference_number) then
    .error .integrityError
  else
    .ok (store ++ [txn1], txn1)

/-- TransactionCreateSerializer.validate (transactions/serializers.py lines
51-70): sequentially checks ownership of from_account, sufficient funds on
from_account, and amount > 0, raising ValidationError at the first failure.
to_account is fetched but not used by any check, exactly as in the source. -/
def validate (store : AccountStore) (user : Nat)
    (from_account to_account : Option Nat) (amount : Int) : Except PyError Unit :=
  let ownFail : Bool := match from_account with
    | some f => (store f).userId != user
    | none => false
  let fundsFail : Bool := match from_account with
    | some f => decide ((store f).available_balance < amount)
    | none => false
  if ownFail then .error (.validationError "You do not own the source account")
  else if fundsFail then .error (.validationError "Insufficient funds")
  else if amount ≤ 0 then .error (.validationError "Amount must be positive")
  else .ok ()

/-- TransactionCreateSerializer._process_transaction (serializers.py lines
81-96). transaction.from_account and transaction.to_account hold the
in-memory instances that the serializer's related fields loaded from the
store during validation (two separate fetches, so two snapshots of the
pre-request rows even when both reference the same row); each save() writes
the corresponding snapshot, with only available_balance changed, back over
its row. The method then assigns status = "completed" on the in-memory
transaction and evaluates timezone.now() — but serializers.py never imports
timezone (its imports are rest_framework.serializers, decimal.Decimal and
the two model modules), so a NameError is raised at line 95 and
transaction.save() at line 96 is never reached: the stored transaction row
keeps its previous status and processed_at. The result is the account store
after the two saves, the in-memory transaction object at the point of the
raise, and the raised error. -/
def process_transaction (store0 : AccountStore) (txn : Transaction)
    (genFrom genTo : String) : AccountStore × Transaction × Option PyError :=
  let s1 := match txn.from_account with
    | some f => writeRow store0 f (Account.saveRow
        { store0 f with available_balance := (store0 f).available_balance - txn.amount } genFrom)
    | none => store0
  let s2 := match txn.to_account with
    | some t => writeRow s1 t (Account.saveRow
        { store0 t with available_balance := (store0 t).available_balance + txn.amount } genTo)
    | none => s1
  (s2, { txn with status := "completed" }, some (.nameError "timezone"))

/-- The database state the transaction-creation path touches. -/
structure DB where
  accounts : AccountStore
  transactions : List Transaction

/-- The full transaction-creation path (TransactionViewSet.create with
TransactionCreateSerializer): validate, then Transaction.objects.create
(which runs Transaction.save, generating the reference number and
inserting under the unique constraint), then _process_transaction. A
raised error at any stage is returned alongside the database state at that
point; DRF turns a ValidationError raised in validate into a 400 response
before any row is written. -/
def create_transaction (db : DB) (user : Nat)
    (from_account to_account : Option Nat) (transaction_type : String)
    (amount : Int) (currency : String)
    (timestamp random_suffix genFrom genTo : String) : DB × Option PyError :=
  match validate db.accounts user from_account to_account amount with
  | .error e => (db, some e)
  | .ok () =>
    let txn0 : Transaction :=
      { from_account := from_account, to_account := to_account,
        transaction_type := transaction_type, status := "pending",
        amount := amount, currency := currency,
        reference_number := "", processed_at := none }
    match Transaction.saveNew db.transactions txn0 timestamp random_suffix with
    | .error e => (db, some e)
    | .ok (txns, txn) =>
      let p := process_transaction db.accounts txn genFrom genTo
      ({ accounts := p.1, transactions := txns }, p.2.2)

/-! ### Card subsystem (apps/cards/models.py) -/

/-- Python digits_of(n) = the decimal digits of str(n), most significant
first (cards/models.py lines 110-111), written with a digit-count fuel so
the kernel can evaluate it; fuel 30 covers every number below 10^30 and in
particular the 15- and 16-digit card numbers and the products d*2 <= 18. -/
def pyStrDigits (fuel : Nat) (n : Nat) : List Nat :=
  match fuel with
  | 0 => []
  | fuel + 1 => if n < 10 then [n] else pyStrDigits fuel (n / 10) ++ [n % 10]

/-- digits_of from Card.calculate_luhn_check_digit. -/
def digits_of (n : Nat) : List Nat := pyStrDigits 30 n

/-- Python slice xs[0::2] on a list: every second element starting with the
first. digits[-1::-2] is everyOther of the reversed list and digits[-2::-2]
is everyOther of the reversed list with its head dropped. -/
def everyOther : List Nat → List Nat
  | [] => []
  | [a] => [a]
  | a :: _ :: rest => a :: everyOther rest

/-- luhn_checksum from Card.calculate_luhn_check_digit (cards/models.py
lines 109-118): sum the digits in odd positions from the right, add the
digit sums of the doubled digits in even positions from the right, mod 10.
This is the standard Luhn mod-10 validator: a number passes the Luhn
checksum exactly when luhn_checksum of it is 0. -/
def luhn_checksum (card_num : Nat) : Nat :=
  let digits := digits_of card_num
  let odd_digits := everyOther digits.reverse
  let even_digits := everyOther (digits.reverse.drop 1)
  (odd_digits.sum + (even_digits.map (fun d => (digits_of (d * 2)).sum)).sum) % 10

/-- Card.calculate_luhn_check_digit (cards/models.py line 120):
(10 - luhn_checksum(int(part_number))) % 10. Note the checksum is taken of
the 15-digit number itself, not of that number with a 0 appended. -/
def calculate_luhn_check_digit (part_number : Nat) : Nat :=
  (10 - luhn_checksum part_number) % 10

/-- Digit list to the integer it denotes, most significant digit first:
Python int() of the digit string. -/
def natOfDigits (ds : List Nat) : Nat := ds.foldl (fun acc d => 10 * acc + d) 0

/-- Card.generate_card_number (cards/models.py lines 86-101) on the digit
level: BIN "4532", then the 11 random digits (oracle parameter), then the
check digit of the 15-digit number. The space formatting of the
returned string is presentation only and elided. -/
def generate_card_number (account_identifier : List Nat) : List Nat :=
  let bin_number : List Nat := [4, 5, 3, 2]
  let partNum := bin_number ++ account_identifier
  partNum ++ [calculate_luhn_check_digit (natOfDigits partNum)]

/-! ### Calendar arithmetic and recurring transactions
(apps/transactions/models.py RecurringTransaction, views.py execute) -/

/-- Gregorian calendar date. The DateTimeField values involved carry a time
of day that every modelled offset preserves unchanged, so it is elided. -/
structure Date where
  year : Nat
  month : Nat
  day : Nat
  deriving DecidableEq

/-- Gregorian leap-year rule. -/
def isLeapYear (y : Nat) : Bool :=
  (y % 4 == 0 && y % 100 != 0) || y % 400 == 0

/-- Days in a Gregorian month. -/
def daysInMonth (y m : Nat) : Nat :=
  if m = 2 then (if isLeapYear y then 29 else 28)
  else if m = 4 ∨ m = 6 ∨ m = 9 ∨ m = 11 then 30
  else 31

/-- The day after d. -/
def Date.nextDay (d : Date) : Date :=
  if d.day < daysInMonth d.year d.month then { d with day := d.day + 1 }
  else if d.month < 12 then { year := d.year, month := d.month + 1, day := 1 }
  else { year := d.year + 1, month := 1, day := 1 }

/-- datetime.timedelta(days=n) addition. -/
def Date.addDays (d : Date) : Nat → Date
  | 0 => d
  | n + 1 => d.nextDay.addDays n

/-- dateutil relativedelta(months=n) addition: advance the month with year
carry and clamp the day of month to the length of the target month. -/
def Date.addMonths (d : Date) (n : Nat) : Date :=
  let m0 := d.month - 1 + n
  let y := d.year + m0 / 12
  let m := m0 % 12 + 1
  { year := y, month := m, day := min d.day (daysInMonth y m) }

/-- dateutil relativedelta(years=n) addition: advance the year and clamp
the day of month (Feb 29 becomes Feb 28 in a non-leap year). -/
def Date.addYears (d : Date) (n : Nat) : Date :=
  { year := d.year + n, month := d.month,
    day := min d.day (daysInMonth (d.year + n) d.month) }

/-- One row of transactions/models.py RecurringTransaction, restricted to
the columns read or written by calculate_next_execution and the execute
action, plus the control columns is_active / max_executions / end_date that
the claims quantify over. -/
structure RecurringTransaction where
  userId : Nat
  from_account : Nat
  to_account : Option Nat
  transaction_type : String
  amount : Int
  currency : String
  description : String
  frequency : String
  start_date : Date
  end_date : Option Date
  next_execution : Date
  is_active : Bool
  execution_count : Int
  max_executions : Option Int
  last_executed : Option Date
  last_transaction : Option Transaction
  deriving DecidableEq

/-- RecurringTransaction.calculate_next_execution (transactions/models.py
lines 260-281): returns next_execution unchanged when last_executed is
null; otherwise daily/weekly/biweekly add a fixed timedelta to
last_executed while monthly/quarterly/yearly add a relativedelta; an
unknown frequency falls through to next_execution. -/
def calculate_next_execution (r : RecurringTransaction) : Date :=
  match r.last_executed with
  | none => r.next_execution
  | some le =>
    if r.frequency = "daily" then le.addDays 1
    else if r.frequency = "weekly" then le.addDays 7
    else if r.frequency = "biweekly" then le.addDays 14
    else if r.frequency = "monthly" then le.addMonths 1
    else if r.frequency = "quarterly" then le.addMonths 3
    else if r.frequency = "yearly" then le.addYears 1
    else r.next_execution

/-- RecurringTransactionViewSet.execute (transactions/views.py lines
195-224): unconditionally creates a Transaction in status "pending" from
the template, then sets last_executed to the current time, increments
execution_count, records last_transaction, and recomputes next_execution
with calculate_next_execution on the already-updated row. There is no
check of is_active, max_executions or end_date anywhere in the action. The
current time and the reference-number oracle are parameters. -/
def executeRecurring (r : RecurringTransaction) (now : Date)
    (timestamp random_suffix : String) : RecurringTransaction × Transaction :=
  let txn : Transaction :=
    { from_account := some r.from_account, to_account := r.to_account,
      transaction_type := r.transaction_type, status := "pending",
      amount := r.amount, currency := r.currency,
      reference_number := generate_reference_number timestamp random_suffix,
      processed_at := none }
  let r1 := { r with last_executed := some now,
                     execution_count := r.execution_count + 1,
                     last_transaction := some txn }
  ({ r1 with next_execution := calculate_next_execution r1 }, txn)

/-! ### Disputes (transactions/models.py TransactionDispute,
views.py TransactionViewSet.dispute) -/

/-- One TransactionDispute row, restricted to the request-writable columns.
The one-to-one relation to Transaction is modelled by keeping at most one
dispute per transaction (an Option in the per-transaction state). -/
structure TransactionDispute where
  reason : String
  status : String
  description : String
  deriving DecidableEq

/-- Valid choices of TransactionDispute.reason. -/
def DISPUTE_REASONS : List String :=
  ["unauthorized", "duplicate", "not_received", "defective",
   "incorrect_amount", "fraud", "other"]

/-- Valid choices of TransactionDispute.status. -/
def DISPUTE_STATUS : List String :=
  ["open", "investigating", "resolved", "rejected", "closed"]

/-- TransactionViewSet.dispute (views.py lines 141-172) for one target
transaction, whose current dispute state (at most one, by the one-to-one
relation) is existing. If a dispute exists the action returns HTTP 409 and
changes nothing. Otherwise TransactionDisputeSerializer validates the
payload: reason must be a valid choice, description non-empty, and — since
status is listed in the serializer's fields but not in read_only_fields —
an optional payload status that, when present, must be a valid choice and
is stored; when absent the model default "open" applies. An invalid
payload yields HTTP 400 and no dispute. The result is the HTTP status code
and the dispute state after the call. -/
def dispute (existing : Option TransactionDispute)
    (reason description : String) (payload_status : Option String) :
    Nat × Option TransactionDispute :=
  if existing.isSome then (409, existing)
  else
    let status_ok : Bool := match payload_status with
      | some s => DISPUTE_STATUS.contains s
      | none => true
    if DISPUTE_REASONS.contains reason && status_ok && description != "" then
      (201, some { reason := reason, status := payload_status.getD "open",
                   description := description })
    else (400, existing)

/-! ### Concrete sample states used by counterexamples and witnesses -/

/-- A checking account owned by user 1 with available balance 100.00000000
(integers are in units of 10^-8). -/
def acctA : Account :=
  { userId := 1, account_number := "1015550001", account_type := "checking",
    currency := "USD", available_balance := 10000000000,
    ledger_balance := 10000000000, pending_balance := 0,
    is_active := true, is_frozen := false }

/-- A savings account owned by user 1 with available balance 0.50000000. -/
def acctB : Account :=
  { acctA with
      account_number := "2015550002", account_type := "savings",
      available_balance := 50000000 }

/-- A two-account table (row 0 is acctA, every other row is acctB) with an
empty transaction table. -/
def dbAB : DB := { accounts := fun i => if i = 0 then acctA else acctB, transactions := [] }

/-- A freshly created checking account: all balances 0. -/
def acctFresh : Account := { acctA with available_balance := 0, ledger_balance := 0 }

/-- A one-account table holding only fresh accounts, empty transaction table. -/
def dbFresh : DB := { accounts := fun _ => acctFresh, transactions := [] }

/-- A recurring-transaction template used to instantiate the calendar
claims at concrete frequencies and dates. -/
def rBase : RecurringTransaction :=
  { userId := 1, from_account := 0, to_account := none,
    transaction_type := "transfer", amount := 100000000, currency := "USD",
    description := "rent", frequency := "monthly", start_date := ⟨2024, 1, 1⟩,
    end_date := none, next_execution := ⟨2024, 1, 31⟩, is_active := true,
    execution_count := 0, max_executions := none,
    last_executed := some ⟨2024, 1, 31⟩, last_transaction := none }

/-- An already-open dispute row. -/
def dOpen : TransactionDispute :=
  { reason := "fraud", status := "open", description := "card stolen" }

/-- A new in-memory transaction with no reference number yet. -/
def txnNoRef : Transaction :=
  { from_account := none, to_account := some 0, transaction_type := "deposit",
    status := "pending", amount := 100, currency := "USD",
    reference_number := "", processed_at := none }

/-- The row txnNoRef receives once saved on 2024-01-01 with random suffix
00000001. -/
def txnSaved : Transaction :=
  { txnNoRef with reference_number := generate_reference_number "20240101" "00000001" }

/-- The spec's store-level uniqueness property: no two rows of the
transaction table hold the same reference_number. -/
def refsDistinct (store : List Transaction) : Prop :=
  store.Pairwise (fun a b => a.reference_number ≠ b.reference_number)

/-! ### Helper lemmas -/

theorem saveRow_available (a : Account) (g : String) :
    (Account.saveRow a g).available_balance = a.available_balance := by
  unfold Account.saveRow; split <;> rfl

theorem saveRow_ledger (a : Account) (g : String) :
    (Account.saveRow a g).ledger_balance = a.ledger_balance := by
  unfold Account.saveRow; split <;> rfl

theorem saveRow_pending (a : Account) (g : String) :
    (Account.saveRow a g).pending_balance = a.pending_balance := by
  unfold Account.saveRow; split <;> rfl

theorem writeRow_same (s : AccountStore) (id : Nat) (a : Account) :
    writeRow s id a id = a := by
  simp [writeRow]

theorem writeRow_other (s : AccountStore) (id j : Nat) (a : Account) (h : j ≠ id) :
    writeRow s id a j = s j := by
  simp [writeRow, h]

/-- On the success path (validation passed, no reference-number collision),
create_transaction stores the account table produced by
process_transaction on the pre-request table, keeps the inserted
transaction row in status "pending" with no processed_at (the in-memory
completion is lost to the NameError), and surfaces the NameError. -/
theorem create_transaction_ok (db : DB) (user : Nat)
    (fa ta : Option Nat) (ttype : String) (amount : Int)
    (curr ts rand genF genT : String)
    (hval : validate db.accounts user fa ta amount = Except.ok ())
    (href : db.transactions.any
      (fun tx => tx.reference_number == generate_reference_number ts rand) = false) :
    create_transaction db user fa ta ttype amount curr ts rand genF genT =
      ({ accounts := (process_transaction db.accounts
            { from_account := fa, to_account := ta, transaction_type := ttype,
              status := "pending", amount := amount, currency := curr,
              reference_number := generate_reference_number ts rand,
              processed_at := none } genF genT).1,
         transactions := db.transactions ++
            [{ from_account := fa, to_account := ta, transaction_type := ttype,
               status := "pending", amount := amount, currency := curr,
               reference_number := generate_reference_number ts rand,
               processed_at := none }] },
       some (PyError.nameError "timezone")) := by
  unfold create_transaction
  rw [hval]
  unfold Transaction.saveNew Transaction.withReference
  simp only [reduceIte, href, Bool.false_eq_true, process_transaction]

/-- C1 as stated fails on a self-transfer: with from_account = to_account =
account 0 (balance 100.00000000, owned by the requesting user 1), a
transfer of 50.00000000 passes validation, yet the final available balance
is the initial one plus the amount (the second stale-instance save
overwrites the debit), not the initial one minus the amount. -/
theorem C1_counterexample :
    validate dbAB.accounts 1 (some 0) (some 0) 5000000000 = Except.ok () ∧
    ((create_transaction dbAB 1 (some 0) (some 0) "transfer" 5000000000 "USD"
        "20240115" "00000002" "" "").1.accounts 0).available_balance
      = (dbAB.accounts 0).available_balance + 5000000000 ∧
    ((create_transaction dbAB 1 (some 0) (some 0) "transfer" 5000000000 "USD"
        "20240115" "00000002" "" "").1.accounts 0).available_balance
      ≠ (dbAB.accounts 0).available_balance - 5000000000 :=
  ⟨rfl, by decide, by decide⟩

/-- C1 amended: for every transaction creation that passes validation with
both accounts set, provided from_account and to_account are distinct rows
and the generated reference number does not collide with an existing one,
the source available balance decreases by exactly amount, the destination
available balance increases by exactly amount, and their sum is unchanged. -/
theorem C1_amended (db : DB) (user f t : Nat) (ttype : String) (amount : Int)
    (curr ts rand genF genT : String)
    (hft : f ≠ t)
    (hval : validate db.accounts user (some f) (some t) amount = Except.ok ())
    (href : db.transactions.any
      (fun tx => tx.reference_number == generate_reference_number ts rand) = false) :
    ((create_transaction db user (some f) (some t) ttype amount curr
        ts rand genF genT).1.accounts f).available_balance
      = (db.accounts f).available_balance - amount ∧
    ((create_transaction db user (some f) (some t) ttype amount curr
        ts rand genF genT).1.accounts t).available_balance
      = (db.accounts t).available_balance + amount ∧
    ((create_transaction db user (some f) (some t) ttype amount curr
        ts rand genF genT).1.accounts f).available_balance +
    ((create_transaction db user (some f) (some t) ttype amount curr
        ts rand genF genT).1.accounts t).available_balance
      = (db.accounts f).available_balance + (db.accounts t).available_balance := by
  rw [create_transaction_ok db user (some f) (some t) ttype amount curr ts rand genF genT hval href]
  simp only [process_transaction]
  have hf : writeRow (writeRow db.accounts f (Account.saveRow
      { db.accounts f with
          available_balance := (db.accounts f).available_balance - amount } genF)) t
      (Account.saveRow { db.accounts t with
          available_balance := (db.accounts t).available_balance + amount } genT) f
      = Account.saveRow { db.accounts f with
          available_balance := (db.accounts f).available_balance - amount } genF := by
    rw [writeRow_other _ _ _ _ hft, writeRow_same]
  have ht : writeRow (writeRow db.accounts f (Account.saveRow
      { db.accounts f with
          available_balance := (db.accounts f).available_balance - amount } genF)) t
      (Account.saveRow { db.accounts t with
          available_balance := (db.accounts t).available_balance + amount } genT) t
      = Account.saveRow { db.accounts t with
          available_balance := (db.accounts t).available_balance + amount } genT := by
    rw [writeRow_same]
  refine ⟨?_, ?_, ?_⟩ <;>
    simp only [hf, ht, saveRow_available] <;> ring

/-- Witness for C1_amended: a 25.00000000 transfer from account 0 (balance
100.00000000) to account 1 (balance 0.50000000) in dbAB. -/
theorem C1_witness :
    ((create_transaction dbAB 1 (some 0) (some 1) "transfer" 2500000000 "USD"
        "20240115" "00000042" "" "").1.accounts 0).available_balance
      = (dbAB.accounts 0).available_balance - 2500000000 ∧
    ((create_transaction dbAB 1 (some 0) (some 1) "transfer" 2500000000 "USD"
        "20240115" "00000042" "" "").1.accounts 1).available_balance
      = (dbAB.accounts 1).available_balance + 2500000000 ∧
    ((create_transaction dbAB 1 (some 0) (some 1) "transfer" 2500000000 "USD"
        "20240115" "00000042" "" "").1.accounts 0).available_balance +
    ((create_transaction dbAB 1 (some 0) (some 1) "transfer" 2500000000 "USD"
        "20240115" "00000042" "" "").1.accounts 1).available_balance
      = (dbAB.accounts 0).available_balance + (dbAB.accounts 1).available_balance :=
  C1_amended dbAB 1 0 1 "transfer" 2500000000 "USD" "20240115" "00000042" "" ""
    (by decide) rfl rfl

/-- C2 evaluated at the spec's own example: depositing 100.00 (from_account
null, to_account a fresh account) credits the available balance to
100.00000000, but the stored transaction stays in status "pending" with a
null processed_at, because _process_transaction raises NameError on the
unimported name timezone before reaching transaction.save(). -/
theorem C2_code_bug_eval :
    ((create_transaction dbFresh 1 none (some 0) "deposit" 10000000000 "USD"
        "20240115" "00000001" "" "").1.accounts 0).available_balance = 10000000000 ∧
    ((create_transaction dbFresh 1 none (some 0) "deposit" 10000000000 "USD"
        "20240115" "00000001" "" "").1.transactions.map Transaction.status) = ["pending"] ∧
    ((create_transaction dbFresh 1 none (some 0) "deposit" 10000000000 "USD"
        "20240115" "00000001" "" "").1.transactions.map Transaction.status) ≠ ["completed"] ∧
    ((create_transaction dbFresh 1 none (some 0) "deposit" 10000000000 "USD"
        "20240115" "00000001" "" "").1.transactions.map Transaction.processed_at) = [none] ∧
    (create_transaction dbFresh 1 none (some 0) "deposit" 10000000000 "USD"
        "20240115" "00000001" "" "").2 = some (PyError.nameError "timezone") :=
  ⟨by decide, by decide, by decide, by decide, by decide⟩

/-- C3: when from_account is set and its available balance is below the
amount, the creation fails with a ValidationError (either the insufficient
funds message or, when the requester does not own the account, the
ownership message raised first) and the database is returned unchanged —
no balance is touched and no transaction row is inserted. -/
theorem C3_insufficient_funds (db : DB) (user f : Nat) (ta : Option Nat)
    (ttype : String) (amount : Int) (curr ts rand genF genT : String)
    (h : (db.accounts f).available_balance < amount) :
    ∃ msg, create_transaction db user (some f) ta ttype amount curr ts rand genF genT
      = (db, some (PyError.validationError msg)) := by
  unfold create_transaction validate
  by_cases hown : (db.accounts f).userId != user
  · exact ⟨"You do not own the source account", by simp [hown]⟩
  · exact ⟨"Insufficient funds", by simp [hown, h]⟩

/-- Witness for C3_insufficient_funds: account 1 holds 0.50000000, a
transfer of 1.00000000 from it fails and leaves dbAB unchanged. -/
theorem C3_witness :
    ∃ msg, create_transaction dbAB 1 (some 1) (some 0) "transfer" 100000000 "USD"
      "20240115" "00000003" "" "" = (dbAB, some (PyError.validationError msg)) :=
  C3_insufficient_funds dbAB 1 1 (some 0) "transfer" 100000000 "USD"
    "20240115" "00000003" "" "" (by decide)

/-- C8: a creation request with amount <= 0 always fails with a
ValidationError — whichever of the three sequential checks fires first is
a ValidationError — for any combination of from_account and to_account,
and the database is returned unchanged (no transaction is created). -/
theorem C8_nonpositive_amount (db : DB) (user : Nat) (fa ta : Option Nat)
    (ttype : String) (amount : Int) (curr ts rand genF genT : String)
    (h : amount ≤ 0) :
    ∃ msg, create_transaction db user fa ta ttype amount curr ts rand genF genT
      = (db, some (PyError.validationError msg)) := by
  unfold create_transaction validate
  cases fa with
  | none => exact ⟨"Amount must be positive", by simp [h]⟩
  | some f =>
    by_cases hown : (db.accounts f).userId != user
    · exact ⟨"You do not own the source account", by simp [hown]⟩
    · by_cases hfund : (db.accounts f).available_balance < amount
      · exact ⟨"Insufficient funds", by simp [hown, hfund]⟩
      · exact ⟨"Amount must be positive", by simp [hown, hfund, h]⟩

/-- Witness for C8_nonpositive_amount: a zero-amount deposit into account 0
of dbAB fails with a ValidationError and changes nothing. -/
theorem C8_witness :
    ∃ msg, create_transaction dbAB 1 none (some 0) "deposit" 0 "USD"
      "20240115" "00000004" "" "" = (dbAB, some (PyError.validationError msg)) :=
  C8_nonpositive_amount dbAB 1 none (some 0) "deposit" 0 "USD"
    "20240115" "00000004" "" "" (by decide)

theorem process_ledger (store : AccountStore) (txn : Transaction)
    (genF genT : String) (a : Nat) :
    (((process_transaction store txn genF genT).1) a).ledger_balance
      = (store a).ledger_balance := by
  unfold process_transaction
  cases txn.from_account with
  | none =>
    cases txn.to_account with
    | none => rfl
    | some t =>
      simp only [writeRow]
      split
      · rename_i hat; rw [hat, saveRow_ledger]
      · rfl
  | some f =>
    cases txn.to_account with
    | none =>
      simp only [writeRow]
      split
      · rename_i haf; rw [haf, saveRow_ledger]
      · rfl
    | some t =>
      simp only [writeRow]
      split
      · rename_i hat; rw [hat, saveRow_ledger]
      · split
        · rename_i haf; rw [haf, saveRow_ledger]
        · rfl

theorem process_pending (store : AccountStore) (txn : Transaction)
    (genF genT : String) (a : Nat) :
    (((process_transaction store txn genF genT).1) a).pending_balance
      = (store a).pending_balance := by
  unfold process_transaction
  cases txn.from_account with
  | none =>
    cases txn.to_account with
    | none => rfl
    | some t =>
      simp only [writeRow]
      split
      · rename_i hat; rw [hat, saveRow_pending]
      · rfl
  | some f =>
    cases txn.to_account with
    | none =>
      simp only [writeRow]
      split
      · rename_i haf; rw [haf, saveRow_pending]
      · rfl
    | some t =>
      simp only [writeRow]
      split
      · rename_i hat; rw [hat, saveRow_pending]
      · split
        · rename_i haf; rw [haf, saveRow_pending]
        · rfl

theorem process_untouched (store : AccountStore) (txn : Transaction)
    (genF genT : String) (a : Nat)
    (hf : txn.from_account ≠ some a) (ht : txn.to_account ≠ some a) :
    ((process_transaction store txn genF genT).1) a = store a := by
  unfold process_transaction
  cases hfo : txn.from_account with
  | none =>
    cases hto : txn.to_account with
    | none => rfl
    | some t =>
      have hta : a ≠ t := fun hh => ht (hto ▸ by rw [hh])
      simp only []
      rw [writeRow_other _ _ _ _ hta]
  | some f =>
    have hfa : a ≠ f := fun hh => hf (hfo ▸ by rw [hh])
    cases hto : txn.to_account with
    | none =>
      simp only []
      rw [writeRow_other _ _ _ _ hfa]
    | some t =>
      have hta : a ≠ t := fun hh => ht (hto ▸ by rw [hh])
      simp only []
      rw [writeRow_other _ _ _ _ hta, writeRow_other _ _ _ _ hfa]

/-- C9 frame property: across the whole creation path (whether it fails in
validation, fails on the reference-number unique constraint, or runs the
processing and stops at the NameError), the ledger_balance and
pending_balance of every account are unchanged, and every account row that
the transaction does not reference is unchanged in every field. -/
theorem C9_frame (db : DB) (user : Nat) (fa ta : Option Nat) (ttype : String)
    (amount : Int) (curr ts rand genF genT : String) (a : Nat) :
    ((create_transaction db user fa ta ttype amount curr ts rand
        genF genT).1.accounts a).ledger_balance = (db.accounts a).ledger_balance ∧
    ((create_transaction db user fa ta ttype amount curr ts rand
        genF genT).1.accounts a).pending_balance = (db.accounts a).pending_balance ∧
    (fa ≠ some a → ta ≠ some a →
      (create_transaction db user fa ta ttype amount curr ts rand
        genF genT).1.accounts a = db.accounts a) := by
  cases hval : validate db.accounts user fa ta amount with
  | error e =>
    have hdb : create_transaction db user fa ta ttype amount curr ts rand genF genT
        = (db, some e) := by
      unfold create_transaction; rw [hval]
    rw [hdb]
    exact ⟨rfl, rfl, fun h1 h2 => rfl⟩
  | ok u =>
    cases u
    by_cases href : db.transactions.any
        (fun tx => tx.reference_number == generate_reference_number ts rand)
    · have hdb : create_transaction db user fa ta ttype amount curr ts rand genF genT
          = (db, some PyError.integrityError) := by
        unfold create_transaction; rw [hval]
        unfold Transaction.saveNew Transaction.withReference
        simp [href]
      rw [hdb]
      exact ⟨rfl, rfl, fun h1 h2 => rfl⟩
    · rw [create_transaction_ok db user fa ta ttype amount curr ts rand genF genT hval
        (by simpa using href)]
      exact ⟨process_ledger _ _ _ _ _, process_pending _ _ _ _ _,
        fun h1 h2 => process_untouched _ _ _ _ _ h1 h2⟩

/-- Witness for C9_frame: during a transfer between accounts 0 and 1 of
dbAB, the unreferenced account row 5 is unchanged in every field. -/
theorem C9_witness :
    (create_transaction dbAB 1 (some 0) (some 1) "transfer" 2500000000 "USD"
      "20240115" "00000042" "" "").1.accounts 5 = dbAB.accounts 5 :=
  (C9_frame dbAB 1 (some 0) (some 1) "transfer" 2500000000 "USD"
    "20240115" "00000042" "" "" 5).2.2 (by decide) (by decide)

/-- C4 evaluated at a failing input: for the 11 random digits all zero,
generate_card_number yields 4532 0000 0000 0008, whose Luhn checksum is 9,
not 0 — the number does not pass the Luhn checksum. The cause is that
calculate_luhn_check_digit takes the checksum of the 15-digit number
itself instead of that number shifted one position (appended 0), so the
doubling falls on the wrong digit positions of the final number; with the
correct check digit 9 the same 15 digits do pass (third conjunct). -/
theorem C4_luhn_code_bug_eval :
    generate_card_number (List.replicate 11 0)
      = [4, 5, 3, 2, 0, 0, 0, 0, 0, 0, 0, 0, 0, 0, 0, 8] ∧
    luhn_checksum (natOfDigits (generate_card_number (List.replicate 11 0))) = 9 ∧
    luhn_checksum (natOfDigits ([4, 5, 3, 2] ++ List.replicate 11 0 ++ [9])) = 0 :=
  ⟨by decide, by decide, by decide⟩

/-- C5: inserting a new transaction through Transaction.save preserves the
store invariant that all reference numbers are pairwise distinct — the
unique=True constraint on reference_number rejects (IntegrityError) any
insert whose reference already occurs, so a successful save extends a
duplicate-free store to a duplicate-free store. Since every insert goes
through save, the transaction store never holds two rows with the same
reference_number. -/
theorem C5_reference_unique (store : List Transaction) (txn : Transaction)
    (ts rand : String) (store' : List Transaction) (txn' : Transaction)
    (hdist : refsDistinct store)
    (hok : Transaction.saveNew store txn ts rand = Except.ok (store', txn')) :
    refsDistinct store' := by
  unfold Transaction.saveNew at hok
  simp only [] at hok
  split at hok
  · exact absurd hok (by simp)
  · rename_i hany
    have hstore' : store' = store ++ [txn.withReference ts rand] := by
      injection hok with h1
      injection h1 with h2 h3
      exact h2.symm
    subst hstore'
    unfold refsDistinct at hdist ⊢
    rw [List.pairwise_append]
    refine ⟨hdist, List.pairwise_singleton _ _, ?_⟩
    intro a ha b hb
    have hb1 : b = txn.withReference ts rand := by simpa using hb
    subst hb1
    have := List.any_eq_true.not.mp hany
    push_neg at this
    have hne := this a ha
    simpa using hne

/-- Witness for C5_reference_unique: saving txnNoRef into the empty store
on 2024-01-01 with suffix 00000001 yields a one-row store with pairwise
distinct reference numbers. -/
theorem C5_witness : refsDistinct [txnSaved] :=
  C5_reference_unique [] txnNoRef "20240101" "00000001" [txnSaved] txnSaved
    List.Pairwise.nil rfl

/-- C6: calculate_next_execution is calendar-aware for monthly, quarterly
and yearly frequencies — monthly from last_executed 2024-01-31 gives
2024-02-29 (leap year), quarterly from 2024-01-31 gives 2024-04-30, yearly
from 2024-02-29 gives 2025-02-28 — while daily adds a fixed one-day
offset; and the execute action invoked on 2024-01-31 (which first stamps
last_executed with the current time) stores next_execution 2024-02-29 for
a monthly template. -/
theorem C6_calendar_aware :
    calculate_next_execution rBase = ⟨2024, 2, 29⟩ ∧
    calculate_next_execution { rBase with frequency := "quarterly" } = ⟨2024, 4, 30⟩ ∧
    calculate_next_execution { rBase with
        frequency := "yearly", last_executed := some ⟨2024, 2, 29⟩ } = ⟨2025, 2, 28⟩ ∧
    calculate_next_execution { rBase with frequency := "daily" } = ⟨2024, 2, 1⟩ ∧
    (executeRecurring rBase ⟨2024, 1, 31⟩ "20240131" "00000000").1.next_execution
      = ⟨2024, 2, 29⟩ :=
  ⟨by decide, by decide, by decide, by decide, by decide⟩

/-- C7 as stated fails: the serializer's status field is writable (it is
listed in fields and absent from read_only_fields), so a first dispute of
a transaction whose payload carries status "investigating" is created
(HTTP 201) with status "investigating", not "open". -/
theorem C7_counterexample :
    (dispute none "unauthorized" "Charge not authorized" (some "investigating")).1 = 201 ∧
    ((dispute none "unauthorized" "Charge not authorized"
        (some "investigating")).2.map TransactionDispute.status) = some "investigating" ∧
    ((dispute none "unauthorized" "Charge not authorized"
        (some "investigating")).2.map TransactionDispute.status) ≠ some "open" :=
  ⟨by decide, by decide, by decide⟩

/-- C7 amended: disputing a transaction that already has a dispute returns
HTTP 409 and changes nothing; disputing a transaction with no existing
dispute, with a valid payload that does not supply a status, creates
exactly one dispute in status "open" (the model default; a supplied valid
status would be stored instead). -/
theorem C7_amended (existing : Option TransactionDispute)
    (reason description : String) (payload_status : Option String) :
    (∀ d, existing = some d →
      dispute existing reason description payload_status = (409, existing)) ∧
    (existing = none → payload_status = none →
      DISPUTE_REASONS.contains reason = true → description ≠ "" →
      dispute existing reason description payload_status
        = (201, some { reason := reason, status := "open",
                       description := description })) := by
  constructor
  · intro d hd; subst hd; rfl
  · intro he hp hr hdesc
    subst he; subst hp
    unfold dispute
    simp [hr, hdesc]
    simpa using hr

/-- Witness for C7_amended: the second dispute of a transaction already
holding dOpen returns 409 and keeps dOpen; a first dispute with a valid
payload and no status is created in status "open". -/
theorem C7_witness :
    dispute (some dOpen) "duplicate" "second try" none = (409, some dOpen) ∧
    dispute none "duplicate" "Duplicate charge" none
      = (201, some { reason := "duplicate", status := "open",
                     description := "Duplicate charge" }) :=
  ⟨(C7_amended (some dOpen) "duplicate" "second try" none).1 dOpen rfl,
   (C7_amended none "duplicate" "Duplicate charge" none).2 rfl rfl
     (by decide) (by decide)⟩

/-- C10: the execute action applies no guard on the template's control
fields — for every recurring transaction, whatever the values of
is_active, execution_count versus max_executions, and end_date, a call
creates a Transaction in status "pending", increments execution_count by
exactly 1, stamps last_executed with the current time, records the spawned
transaction, and recomputes next_execution from the already-updated row. -/
theorem C10_execute_no_guard (r : RecurringTransaction) (now : Date)
    (ts rand : String) :
    (executeRecurring r now ts rand).2.status = "pending" ∧
    (executeRecurring r now ts rand).1.execution_count = r.execution_count + 1 ∧
    (executeRecurring r now ts rand).1.last_executed = some now ∧
    (executeRecurring r now ts rand).1.last_transaction
      = some (executeRecurring r now ts rand).2 ∧
    (executeRecurring r now ts rand).1.next_execution
      = calculate_next_execution { r with
          last_executed := some now,
          execution_count := r.execution_count + 1,
          last_transaction := some (executeRecurring r now ts rand).2 } :=
  ⟨rfl, rfl, rfl, rfl, rfl⟩

end Lumafin
